import Mathlib

/-!
Verification development for the EarthLink AI spatial interaction core
(frontend map/chat session state).

The embedding models the final state of the frontend source:
`MapChatContext` (viewport, fly-to requests, selection store, highlights),
`Map.tsx` (map click handling and the renderer's fly-to effect),
`TamboProvider.tsx` (agent operations: show_on_map, get_insight_for_region,
compare_locations, search_places) and `LayoutContext.tsx` (the two-slot
side-panel content router).

JavaScript numbers are modelled as exact rationals extended with the three
non-finite values (`JsNum`); external collaborators (geocoding, the insight
backend, `parseFloat`) are oracle parameters.
-/

namespace EarthLink

/-- A JavaScript number: an exact rational, or one of the non-finite values. -/
inductive JsNum where
  | num (q : ℚ)
  | nan
  | posInf
  | negInf
deriving DecidableEq, Repr

namespace JsNum

/-- `Number.isFinite`. -/
def isFinite : JsNum → Bool
  | num _ => true
  | _ => false

/-- `isNaN` on an already-coerced number. -/
def isNaNB : JsNum → Bool
  | nan => true
  | _ => false

/-- JavaScript truthiness of a number: `0` and `NaN` are falsy. -/
def truthy : JsNum → Bool
  | num q => q ≠ 0
  | nan => false
  | _ => true

end JsNum

/-- `Math.min` on two numbers: `NaN` propagates, `-Infinity` dominates. -/
def jsMin : JsNum → JsNum → JsNum
  | .nan, _ => .nan
  | _, .nan => .nan
  | .negInf, _ => .negInf
  | _, .negInf => .negInf
  | .posInf, b => b
  | a, .posInf => a
  | .num a, .num b => .num (min a b)

/-- `Math.max` on two numbers: `NaN` propagates, `Infinity` dominates. -/
def jsMax : JsNum → JsNum → JsNum
  | .nan, _ => .nan
  | _, .nan => .nan
  | .posInf, _ => .posInf
  | _, .posInf => .posInf
  | .negInf, b => b
  | a, .negInf => a
  | .num a, .num b => .num (max a b)

/-- JavaScript `+` on numbers. -/
def jsAdd : JsNum → JsNum → JsNum
  | .nan, _ => .nan
  | _, .nan => .nan
  | .posInf, .negInf => .nan
  | .negInf, .posInf => .nan
  | .posInf, _ => .posInf
  | _, .posInf => .posInf
  | .negInf, _ => .negInf
  | _, .negInf => .negInf
  | .num a, .num b => .num (a + b)

/-- JavaScript `-` on numbers. -/
def jsSub : JsNum → JsNum → JsNum
  | .nan, _ => .nan
  | _, .nan => .nan
  | .posInf, .posInf => .nan
  | .negInf, .negInf => .nan
  | .posInf, _ => .posInf
  | _, .posInf => .negInf
  | .negInf, _ => .negInf
  | _, .negInf => .posInf
  | .num a, .num b => .num (a - b)

/-- JavaScript `x / 2` on a number. -/
def jsHalf : JsNum → JsNum
  | .num a => .num (a / 2)
  | .nan => .nan
  | .posInf => .posInf
  | .negInf => .negInf

/-- JavaScript `<` on numbers: any comparison with `NaN` is false. -/
def jsLt : JsNum → JsNum → Bool
  | .nan, _ => false
  | _, .nan => false
  | .negInf, .negInf => false
  | .negInf, _ => true
  | _, .negInf => false
  | .posInf, _ => false
  | _, .posInf => true
  | .num a, .num b => a < b

/-- A camera value: `{ longitude, latitude, zoom }` (`MapChatContext`). -/
structure Viewport where
  longitude : JsNum
  latitude : JsNum
  zoom : JsNum
deriving DecidableEq, Repr

/-- A point selection value `{ lng, lat }`. -/
structure Pt where
  lng : JsNum
  lat : JsNum
deriving DecidableEq, Repr

/-- A bounding-box array `[minLng, minLat, maxLng, maxLat]`, by index. -/
structure Bbox4 where
  b0 : JsNum
  b1 : JsNum
  b2 : JsNum
  b3 : JsNum
deriving DecidableEq, Repr

/-- `SelectedRegion`: a bbox or an opaque feature id. -/
inductive SelectedRegion where
  | bbox (b : Bbox4)
  | featureId (id : String)
deriving DecidableEq, Repr

/-- `SelectionMode`. -/
inductive SelectionMode where
  | point
  | region
deriving DecidableEq, Repr

/-- A `HighlightedLocation`: the highlight projector only ever pushes
`{ type: "bbox", bbox }` or `{ type: "point", lng, lat }` values. -/
inductive Highlight where
  | point (lng lat : JsNum)
  | box (b : Bbox4)
deriving DecidableEq, Repr

/-- The map/chat session store (`MapChatState`, final shape). -/
structure MapState where
  viewport : Viewport
  flyToRequest : Option Viewport
  selectedPoint : Option Pt
  selectedRegion : Option SelectedRegion
  bboxCorner1 : Option Pt
  selectionMode : SelectionMode
  highlightedLocations : List Highlight
  activeDataUrl : Option String
  activeFilter : Option String
  isLayerVisible : Bool
  heatmapMetric : Option String
  mapStyle : String
deriving DecidableEq, Repr

/-- `SAN_FRANCISCO_VIEWPORT`. -/
def SAN_FRANCISCO_VIEWPORT : Viewport :=
  ⟨.num (-(122419400 : ℚ) / 1000000), .num ((377749 : ℚ) / 10000), .num 11⟩

/-- `defaultState` of the map/chat store. -/
def defaultMapState : MapState where
  viewport := SAN_FRANCISCO_VIEWPORT
  flyToRequest := none
  selectedPoint := none
  selectedRegion := none
  bboxCorner1 := none
  selectionMode := .point
  highlightedLocations := []
  activeDataUrl := some "/data/sf/features.geojson"
  activeFilter := none
  isLayerVisible := true
  heatmapMetric := none
  mapStyle := "dark"

/-- `flyTo(longitude, latitude, zoom?)` from `MapChatContext`: stores the raw
coordinates in the viewport (zoom defaulting to the previous viewport zoom)
and sets a fly-to request (zoom defaulting to the previous request's zoom,
else 11). No clamping and no finiteness check happens here. -/
def flyTo (longitude latitude : JsNum) (zoom : Option JsNum) (s : MapState) : MapState :=
  { s with
    viewport := ⟨longitude, latitude, zoom.getD s.viewport.zoom⟩
    flyToRequest :=
      some ⟨longitude, latitude,
        zoom.getD ((s.flyToRequest.map Viewport.zoom).getD (.num 11))⟩ }

/-- `clearFlyToRequest()`. -/
def clearFlyToRequest (s : MapState) : MapState :=
  { s with flyToRequest := none }

/-- The camera move handed to `map.flyTo` by the renderer. -/
structure CameraMove where
  centerLng : JsNum
  centerLat : JsNum
  zoom : JsNum
deriving DecidableEq, Repr

/-- The renderer's fly-to effect (`Map.tsx`): with a pending request, a
non-finite longitude or latitude clears the request without a camera move;
otherwise the camera move uses longitude clamped to `[-180, 180]`, latitude
clamped to `[-90, 90]` and zoom `Math.max(1, Math.min(18, zoom || 11))`,
and the request is cleared. -/
def applyFlyToRequest (s : MapState) : MapState × Option CameraMove :=
  match s.flyToRequest with
  | none => (s, none)
  | some r =>
    if !(r.longitude.isFinite && r.latitude.isFinite) then
      (clearFlyToRequest s, none)
    else
      let clampedLng := jsMax (.num (-180)) (jsMin (.num 180) r.longitude)
      let clampedLat := jsMax (.num (-90)) (jsMin (.num 90) r.latitude)
      let z := jsMax (.num 1) (jsMin (.num 18) (if r.zoom.truthy then r.zoom else .num 11))
      (clearFlyToRequest s, some ⟨clampedLng, clampedLat, z⟩)

/-- The `Map.tsx` click handler. A click always clears the highlight
sequence; in point mode it selects the point (clearing region and corner);
in region mode the first click records the corner (clearing both
selections), and the second click completes a min/max-normalized bbox
region, clearing the corner and the point. Click coordinates from the map
are always finite. -/
def onMapClick (lng lat : ℚ) (s : MapState) : MapState :=
  let s0 := { s with highlightedLocations := [] }
  match s.selectionMode with
  | .point =>
    { s0 with selectedPoint := some ⟨.num lng, .num lat⟩
              selectedRegion := none
              bboxCorner1 := none }
  | .region =>
    match s.bboxCorner1 with
    | none =>
      { s0 with bboxCorner1 := some ⟨.num lng, .num lat⟩
                selectedPoint := none
                selectedRegion := none }
    | some c =>
      { s0 with
          selectedRegion :=
            some (.bbox ⟨jsMin c.lng (.num lng), jsMin c.lat (.num lat),
                         jsMax c.lng (.num lng), jsMax c.lat (.num lat)⟩)
          bboxCorner1 := none
          selectedPoint := none }

/-- The "Point" tool button (`Map.tsx`): switches mode, clears the pending
corner and the region selection (the point selection is kept). -/
def selectPointMode (s : MapState) : MapState :=
  { s with selectionMode := .point, bboxCorner1 := none, selectedRegion := none }

/-- The "Region" tool button (`Map.tsx`): switches mode, clears the point,
the pending corner and the region selection. -/
def selectRegionMode (s : MapState) : MapState :=
  { s with selectionMode := .region, selectedPoint := none,
           bboxCorner1 := none, selectedRegion := none }

/-- The map style toggle button (`Map.tsx`). -/
def toggleMapStyleButton (s : MapState) : MapState :=
  { s with mapStyle := if s.mapStyle = "dark" then "satellite" else "dark" }

/-- A nested `center` object of a show-on-map location item, with its
fields already coerced by `Number` (`none` models null/undefined). -/
structure CenterObj where
  longitude : Option JsNum
  latitude : Option JsNum
deriving DecidableEq, Repr

/-- A loosely-typed item of the `locations` array handed to `show_on_map`.
Each present field is recorded together with its `Number(...)` coercion
(`.nan` for a present but non-numeric value); `bbox = none` also covers a
present value that is falsy or not an array. -/
structure LocItem where
  bbox : Option (List JsNum)
  longitude : Option JsNum
  latitude : Option JsNum
  center : Option CenterObj
deriving DecidableEq, Repr

/-- The bbox extraction step of the highlight projector: a 4-element array
whose coordinates all coerce to numbers, taken verbatim; anything else
yields no box. -/
def extractBox : Option (List JsNum) → Option Bbox4
  | some [a, b, c, d] =>
    if a.isNaNB || b.isNaNB || c.isNaNB || d.isNaNB then none
    else some ⟨a, b, c, d⟩
  | _ => none

/-- The point extraction step of the highlight projector, tried only when
no box was extracted: direct `longitude`/`latitude` fields if both are
present, else the nested `center` object's fields if both are present. -/
def extractPoint (loc : LocItem) : Option (JsNum × JsNum) :=
  match loc.longitude, loc.latitude with
  | some lng, some lat => some (lng, lat)
  | _, _ =>
    match loc.center with
    | some c =>
      match c.longitude, c.latitude with
      | some lng, some lat => some (lng, lat)
      | _, _ => none
    | none => none

/-- Normalization of one `locations` item (`showOnMap`'s `forEach` body):
an extracted box becomes a bbox highlight; otherwise an extracted point
becomes a point highlight unless either coordinate is `NaN`; otherwise the
item contributes nothing. -/
def normalizeItem (loc : LocItem) : Option Highlight :=
  match extractBox loc.bbox with
  | some b => some (.box b)
  | none =>
    match extractPoint loc with
    | some (lng, lat) =>
      if lng.isNaNB || lat.isNaNB then none
      else some (.point lng lat)
    | none => none

/-- The running union bounds of the accepted items' coordinates. -/
structure Bounds where
  minLng : JsNum
  maxLng : JsNum
  minLat : JsNum
  maxLat : JsNum
deriving DecidableEq, Repr

/-- The initial bounds `minLng = 180, maxLng = -180, minLat = 90,
maxLat = -90`. -/
def initBounds : Bounds := ⟨.num 180, .num (-180), .num 90, .num (-90)⟩

/-- Folding one accepted highlight into the union bounds, exactly as the
`Math.min`/`Math.max` updates in `showOnMap`. -/
def updateBounds (bd : Bounds) : Highlight → Bounds
  | .box b =>
    ⟨jsMin bd.minLng b.b0, jsMax bd.maxLng b.b2,
     jsMin bd.minLat b.b1, jsMax bd.maxLat b.b3⟩
  | .point lng lat =>
    ⟨jsMin bd.minLng lng, jsMax bd.maxLng lng,
     jsMin bd.minLat lat, jsMax bd.maxLat lat⟩

/-- The step of the highlight projector's pass on one array entry: falsy
entries (`none`) and unparsable items are skipped, an accepted item appends
its highlight, folds the union bounds and bumps the count. -/
def projectStep (acc : List Highlight × Bounds × Nat) (oloc : Option LocItem) :
    List Highlight × Bounds × Nat :=
  match oloc with
  | none => acc
  | some loc =>
    match normalizeItem loc with
    | none => acc
    | some h => (acc.1 ++ [h], updateBounds acc.2.1 h, acc.2.2 + 1)

/-- The highlight projector's pass over the `locations` array, from a given
accumulator. -/
def projectLocationsAux : List (Option LocItem) → (List Highlight × Bounds × Nat) →
    List Highlight × Bounds × Nat
  | [], acc => acc
  | oloc :: rest, acc => projectLocationsAux rest (projectStep acc oloc)

/-- The highlight projector's pass over the `locations` array (`null`
entries model falsy array elements, skipped by the `if (!loc) return`):
the accepted highlight sequence, the union bounds, and the accepted
count. -/
def projectLocations (locs : List (Option LocItem)) : List Highlight × Bounds × Nat :=
  projectLocationsAux locs ([], initBounds, 0)

/-- The zoom chosen by `showOnMap`'s framing step from the caller zoom, the
accepted count and the union box's spread. -/
def chooseZoom (zoom : Option JsNum) (count : Nat) (spread : JsNum) : JsNum :=
  if count = 1 then zoom.getD (.num 13)
  else if jsLt spread (.num (5 / 100)) then .num 13
  else if jsLt spread (.num (1 / 10)) then .num 12
  else .num 11

/-- The spread of a union bounds value:
`Math.max(maxLng - minLng, maxLat - minLat)`. -/
def spreadOf (bd : Bounds) : JsNum :=
  jsMax (jsSub bd.maxLng bd.minLng) (jsSub bd.maxLat bd.minLat)

/-- The arguments of the `show_on_map` operation. -/
structure ShowArgs where
  longitude : Option JsNum
  latitude : Option JsNum
  bbox : Option (List JsNum)
  zoom : Option JsNum
  locations : Option (List (Option LocItem))
deriving DecidableEq, Repr

/-- A structured operation result `{ success, error? }`. -/
structure ShowResult where
  success : Bool
  error : Option String
deriving DecidableEq, Repr

/-- The `bbox != null && bbox.length === 4` guard of `show_on_map`'s bbox
branch, yielding the 4-tuple when it passes. -/
def bboxArg4 : Option (List JsNum) → Option Bbox4
  | some [a, b, c, d] => some ⟨a, b, c, d⟩
  | _ => none

/-- The non-`locations` branches of `show_on_map`: a 4-element `bbox` (clear
highlights, select the region, clear the point, fly to the bbox center at
`zoom ?? 12`), else direct `longitude`/`latitude` (clear highlights, select
the point, clear the region, fly there at `zoom ?? 14`), else a soft error
result with no state change. -/
def showOnMapNoLocations (args : ShowArgs) (s : MapState) : MapState × ShowResult :=
  match bboxArg4 args.bbox with
  | some nb =>
    let s1 := { s with highlightedLocations := []
                       selectedRegion := some (.bbox nb)
                       selectedPoint := none }
    let centerLng := jsHalf (jsAdd nb.b0 nb.b2)
    let centerLat := jsHalf (jsAdd nb.b1 nb.b3)
    (flyTo centerLng centerLat (some (args.zoom.getD (.num 12))) s1, ⟨true, none⟩)
  | none =>
    match args.longitude, args.latitude with
    | some lng, some lat =>
      let s1 := { s with highlightedLocations := []
                         selectedPoint := some ⟨lng, lat⟩
                         selectedRegion := none }
      (flyTo lng lat (some (args.zoom.getD (.num 14))) s1, ⟨true, none⟩)
    | _, _ =>
      (s, ⟨false, some "Provide locations array, or (longitude, latitude), or bbox."⟩)

/-- The non-empty-`locations` branch of `show_on_map`: project the items
(replacing the highlight sequence with the projector's output and clearing
both selections) and, when at least one item was accepted, fly to the
midpoint of the union box at the tiered zoom. -/
def showOnMapLocations (zoom : Option JsNum) (locs : List (Option LocItem))
    (s : MapState) : MapState × ShowResult :=
  let proj := projectLocations locs
  let s1 := { s with highlightedLocations := proj.1
                     selectedPoint := none
                     selectedRegion := none }
  if proj.2.2 > 0 then
    let bd := proj.2.1
    let centerLng := jsHalf (jsAdd bd.minLng bd.maxLng)
    let centerLat := jsHalf (jsAdd bd.minLat bd.maxLat)
    let tz := chooseZoom zoom proj.2.2 (spreadOf bd)
    (flyTo centerLng centerLat (some tz) s1, ⟨true, none⟩)
  else
    (s1, ⟨true, none⟩)

/-- `show_on_map` (final `TamboProvider.tsx`), its effect on the map store.
With a non-empty `locations` array: project the items (replacing the
highlight sequence, clearing both selections) and, when at least one item
was accepted, fly to the midpoint of the union box at the tiered zoom.
Else with a 4-element `bbox`: clear highlights, select the bbox region,
clear the point, fly to its center. Else with `longitude`/`latitude`:
clear highlights, select the point, clear the region, fly to it. Else a
soft error result. (The sidebar side effect of the locations branch lands
in the panel store, modelled separately.) -/
def showOnMap (args : ShowArgs) (s : MapState) : MapState × ShowResult :=
  match args.locations with
  | some locs =>
    if locs.length > 0 then showOnMapLocations args.zoom locs s
    else showOnMapNoLocations args s
  | none => showOnMapNoLocations args s

/-- `search_places` after a successful geocode of a feature centered at
`(lng, lat)`: fly there at zoom 14, select the point, clear the region.
(`not found`, a missing token, or a fetch failure leave the store
unchanged.) -/
def searchPlacesFound (lng lat : JsNum) (s : MapState) : MapState :=
  let s1 := flyTo lng lat (some (.num 14)) s
  { s1 with selectedPoint := some ⟨lng, lat⟩, selectedRegion := none }

/-- `filter_map_view`. -/
def filterMapView (filter : String) (s : MapState) : MapState :=
  { s with activeFilter := some filter }

/-- `toggle_map_layer`: each argument, when present, is applied. -/
def toggleMapLayer (layer_visible : Option Bool) (map_style : Option String)
    (s : MapState) : MapState :=
  let s1 := match layer_visible with
    | some v => { s with isLayerVisible := v }
    | none => s
  match map_style with
  | some st => { s1 with mapStyle := st }
  | none => s1

/-- `visualize_heatmap`: `show = (visible !== false)`; with a metric, set it
and the visibility; without, clear the metric and set the visibility. -/
def visualizeHeatmap (metric : Option String) (visible : Option Bool)
    (s : MapState) : MapState :=
  let visFlag := visible ≠ some false
  match metric with
  | some m => { s with heatmapMetric := some m, isLayerVisible := visFlag }
  | none => { s with heatmapMetric := none, isLayerVisible := visFlag }

/-- One mutation of the map/chat store: a direct user interaction on the
map surface, or an agent operation's store write. Operations that only
write the side panel do not touch this store. -/
inductive Event where
  | click (lng lat : ℚ)
  | pointModeButton
  | regionModeButton
  | styleButton
  | showMap (args : ShowArgs)
  | placeFound (lng lat : JsNum)
  | navigate (lng lat : JsNum) (zoom : Option JsNum)
  | applyFly
  | clearFly
  | moveViewport (v : Viewport)
  | setFilter (f : String)
  | layerCtl (visible : Option Bool) (style : Option String)
  | heatmap (metric : Option String) (visible : Option Bool)

/-- The effect of one event on the map/chat store. -/
def step (s : MapState) : Event → MapState
  | .click lng lat => onMapClick lng lat s
  | .pointModeButton => selectPointMode s
  | .regionModeButton => selectRegionMode s
  | .styleButton => toggleMapStyleButton s
  | .showMap args => (showOnMap args s).1
  | .placeFound lng lat => searchPlacesFound lng lat s
  | .navigate lng lat zoom => flyTo lng lat zoom s
  | .applyFly => (applyFlyToRequest s).1
  | .clearFly => clearFlyToRequest s
  | .moveViewport v => { s with viewport := v }
  | .setFilter f => filterMapView f s
  | .layerCtl v st => toggleMapLayer v st s
  | .heatmap m v => visualizeHeatmap m v s

/-- The states of the map/chat store reachable from the default state. -/
inductive Reachable : MapState → Prop where
  | init : Reachable defaultMapState
  | step {s : MapState} (h : Reachable s) (e : Event) : Reachable (step s e)

/-- One entry of a backend comparison response. -/
structure CompItem where
  id : Option String
  label : Option String
  metrics : Option (List (String × JsNum))
deriving DecidableEq, Repr

/-- A renderable side-panel content value, identified by what produced it
(the panel router treats content as opaque). -/
inductive Content where
  | comparisonTable (title : String) (comparison : List CompItem)
      (metricsToShow : Option (List String))
  | metricsTable (title : String)
  | node (id : Nat)
deriving DecidableEq, Repr

/-- The side-panel store (`LayoutContext`): visibility flag, current
content, and one alternate content slot. -/
structure PanelState where
  isOpen : Bool
  content : Option Content
  altContent : Option Content
deriving DecidableEq, Repr

/-- The initial panel state. -/
def defaultPanelState : PanelState := ⟨false, none, none⟩

/-- `setLeftSidebarContent(content, { keepAlt? })`: with `keepAlt` and a
truthy current content, the current content moves to the alternate slot;
with `keepAlt` falsy the alternate slot is cleared; with `keepAlt` and no
current content the alternate slot is left untouched. The new content is
then stored. -/
def setLeftSidebarContent (content : Option Content) (keepAlt : Bool)
    (s : PanelState) : PanelState :=
  if keepAlt && s.content.isSome then
    { s with altContent := s.content, content := content }
  else if !keepAlt then
    { s with altContent := none, content := content }
  else
    { s with content := content }

/-- `toggleSidebarView()`: the alternate slot always receives the previous
current content; the current content becomes the alternate one when the
alternate slot was non-null. -/
def toggleSidebarView (s : PanelState) : PanelState :=
  match s.altContent with
  | some alt => { s with content := some alt, altContent := s.content }
  | none => { s with altContent := s.content }

/-- `openLeftSidebar()`. -/
def openLeftSidebar (s : PanelState) : PanelState :=
  { s with isOpen := true }

/-- `closeLeftSidebar()`. -/
def closeLeftSidebar (s : PanelState) : PanelState :=
  { s with isOpen := false }

/-- The outcome of `get_insight_for_region`'s target-resolution step: what
is forwarded to the region-insight fetch, or the structured missing-context
soft error returned as a value. -/
inductive RegionResolution where
  | fetchTarget (bbox : Option Bbox4) (feature_id : Option String)
  | missingContext (msg : String)
deriving DecidableEq, Repr

/-- The `±0.003°` half-width of the bbox synthesized around a selected
point. -/
def pointBboxDelta : JsNum := .num (3 / 1000)

/-- The target-resolution step of `get_insight_for_region`: explicit `bbox`
or `feature_id` arguments win; else the current region selection supplies
its bbox or feature id; else a selected point is widened to a small bbox
around it; else the missing-context soft error is the result value (the
operation never throws). -/
def resolveRegionTarget (bboxArg : Option Bbox4) (featureIdArg : Option String)
    (selRegion : Option SelectedRegion) (selPoint : Option Pt) : RegionResolution :=
  let p1 : Option Bbox4 × Option String :=
    if bboxArg.isNone && featureIdArg.isNone then
      match selRegion with
      | some (.bbox b) => (some b, featureIdArg)
      | some (.featureId i) => (bboxArg, some i)
      | none => (bboxArg, featureIdArg)
    else (bboxArg, featureIdArg)
  let p2 : Option Bbox4 × Option String :=
    if p1.1.isNone && p1.2.isNone then
      match selPoint with
      | some p =>
        (some ⟨jsSub p.lng pointBboxDelta, jsSub p.lat pointBboxDelta,
               jsAdd p.lng pointBboxDelta, jsAdd p.lat pointBboxDelta⟩, p1.2)
      | none => p1
    else p1
  if p2.1.isNone && p2.2.isNone then
    .missingContext "No region or point selected. Ask the user to click a point or draw a region on the map, or provide bbox or feature_id."
  else
    .fetchTarget p2.1 p2.2

/-- A resolved compare target `{ feature_id?, longitude?, latitude? }`. -/
structure CompareTargetRef where
  feature_id : Option String
  longitude : Option JsNum
  latitude : Option JsNum
deriving DecidableEq, Repr

/-- One raw entry of `compare_locations`' `targets` array: an object, or a
string shorthand. -/
inductive CompTarget where
  | strTarget (s : String)
  | objTarget (t : CompareTargetRef)
deriving DecidableEq, Repr

/-- The `add_extreme` argument of `compare_locations`. -/
structure AddExtreme where
  metric : String
  mode : String
  top_n : Option Nat
deriving DecidableEq, Repr

/-- One ranked result of the find-extreme backend. -/
structure ExtremeResult where
  center : Option CenterObj
  bbox : Option (List JsNum)
deriving DecidableEq, Repr

/-- A backend comparison response: an object with a (truthy) `comparison`
array, a bare array, or anything else. -/
inductive CompResponse where
  | withComparison (items : List (Option CompItem))
  | asArray (items : List (Option CompItem))
  | otherResp

/-- The external collaborators of `compare_locations`, as oracles: the
geocoding token and limit-1 geocoder (`none` models both an empty feature
list and a fetch failure, which the code skips over identically), JavaScript
`parseFloat`, the find-extreme fetch (metric, mode, top-n to the result
array), and the comparison fetch. -/
structure CompareEnv where
  hasToken : Bool
  geocode : String → Option (JsNum × JsNum)
  parseFloatFn : String → JsNum
  fetchExtreme : String → String → Nat → List ExtremeResult
  fetchComparison : List CompareTargetRef → CompResponse

/-- JavaScript `toLowerCase()` on ASCII text, over the character list (the
standard-library string functions do not reduce in the kernel). -/
def jsToLower (s : String) : String := ⟨s.data.map Char.toLower⟩

/-- JavaScript `startsWith`. -/
def jsStartsWith (s pre : String) : Bool := List.isPrefixOf pre.data s.data

/-- JavaScript `replace(pat, rep)` with a string pattern: only the first
occurrence is replaced. -/
def replaceFirstAux (pat rep : List Char) : List Char → List Char
  | [] => []
  | c :: rest =>
    if List.isPrefixOf pat (c :: rest) then rep ++ (c :: rest).drop pat.length
    else c :: replaceFirstAux pat rep rest

/-- JavaScript `replace(pat, rep)` on strings (first occurrence only). -/
def jsReplaceFirst (s pat rep : String) : String :=
  ⟨replaceFirstAux pat.data rep.data s.data⟩

/-- JavaScript `split(sep)` with a one-character separator, over the
character list. -/
def splitAux (sep : Char) : List Char → List Char → List String
  | [], acc => [⟨acc.reverse⟩]
  | c :: rest, acc =>
    if c = sep then ⟨acc.reverse⟩ :: splitAux sep rest []
    else splitAux sep rest (c :: acc)

/-- JavaScript `split(sep)` for a one-character separator string. -/
def jsSplit (s : String) (sep : Char) : List String := splitAux sep s.data []

/-- Resolution of one string target: `"selected"`/`"current"` take the
current point selection (contributing nothing without one); `"point:lng,lat"`
parses the two coordinates (contributing nothing unless both parse);
`"feature:id"` yields a feature reference; any other string is geocoded,
zero matches or a failed fetch contributing nothing. -/
def resolveStringTarget (env : CompareEnv) (sel : Option Pt) (t : String) :
    List CompareTargetRef :=
  let lower := jsToLower t
  if lower = "selected" || lower = "current" then
    match sel with
    | some p => [⟨none, some p.lng, some p.lat⟩]
    | none => []
  else if jsStartsWith lower "point:" then
    match jsSplit (jsReplaceFirst lower "point:" "") ',' with
    | [a, b] =>
      let lng := env.parseFloatFn a
      let lat := env.parseFloatFn b
      if lng.isNaNB || lat.isNaNB then [] else [⟨none, some lng, some lat⟩]
    | _ => []
  else if jsStartsWith lower "feature:" then
    [⟨some (jsReplaceFirst lower "feature:" ""), none, none⟩]
  else if env.hasToken then
    match env.geocode t with
    | some (lng, lat) => [⟨none, some lng, some lat⟩]
    | none => []
  else []

/-- The targets contributed by one find-extreme result's bbox: its midpoint,
when the bbox is an array of length at least 4. -/
def extremeBboxTarget : Option (List JsNum) → List CompareTargetRef
  | some l =>
    if 4 ≤ l.length then
      [⟨none, some (jsHalf (jsAdd (l.getD 0 .nan) (l.getD 2 .nan))),
              some (jsHalf (jsAdd (l.getD 1 .nan) (l.getD 3 .nan)))⟩]
    else []
  | none => []

/-- The targets contributed by one find-extreme result: its center when both
center coordinates are present, else its bbox midpoint. -/
def extremeTargetOf (r : ExtremeResult) : List CompareTargetRef :=
  match r.center with
  | some c =>
    match c.longitude, c.latitude with
    | some lng, some lat => [⟨none, some lng, some lat⟩]
    | _, _ => extremeBboxTarget r.bbox
  | none => extremeBboxTarget r.bbox

/-- The full list of concrete targets a `compare_locations` call resolves
to: each raw target's contributions in order; then, if that list is empty
and a point is selected, the selected point as single fallback target;
then the contributions of the first `top_n` find-extreme results when
`add_extreme` was given. -/
def finalTargetsOf (env : CompareEnv) (sel : Option Pt)
    (targets : Option (List CompTarget)) (add_extreme : Option AddExtreme) :
    List CompareTargetRef :=
  let resolved := (targets.getD []).foldl
    (fun acc t =>
      match t with
      | .strTarget str => acc ++ resolveStringTarget env sel str
      | .objTarget o => acc ++ [o])
    []
  let withFallback :=
    if resolved.length = 0 then
      match sel with
      | some p => [⟨none, some p.lng, some p.lat⟩]
      | none => resolved
    else resolved
  match add_extreme with
  | some ae =>
    withFallback ++
      ((env.fetchExtreme ae.metric ae.mode (ae.top_n.getD 1)).take (ae.top_n.getD 1)).foldl
        (fun acc r => acc ++ extremeTargetOf r) []
  | none => withFallback

/-- The metric list shown by the comparison view: a non-empty
`metricsToShow` wins; else a default derived from `add_extreme`'s metric. -/
def defaultCompareMetrics : Option AddExtreme → Option (List String)
  | some ae =>
    if ae.metric = "lst" then some ["LST", "Heat Score", "Green Score"]
    else if ae.metric = "green_score" then some ["Green Score", "NDVI", "LST"]
    else none
  | none => none

/-- The result value of `compare_locations`. -/
inductive CompareOutcome where
  | compareError (msg : String)
  | comparisonData (items : List (Option CompItem))

/-- `compare_locations` (final `TamboProvider.tsx`): resolve all targets;
with zero resolved targets return the no-valid-locations soft error with no
fetch and no panel write. Otherwise fetch the comparison (the third
component records the request), extract its array, filter it to the entries
with a non-empty metrics object, and when any remain replace the panel
content (alternate slot cleared) and open the panel; the extracted array is
the result either way. -/
def compareLocations (env : CompareEnv) (targets : Option (List CompTarget))
    (add_extreme : Option AddExtreme) (metricsToShow : Option (List String))
    (sel : Option Pt) (panel : PanelState) :
    CompareOutcome × PanelState × Option (List CompareTargetRef) :=
  let finalTargets := finalTargetsOf env sel targets add_extreme
  if finalTargets.length = 0 then
    (.compareError "No valid locations to compare. Pass place names (e.g. 'Sunset District', 'Glen Park') in targets, click a point on the map and use 'selected', or provide coordinates as 'point:lng,lat'.",
     panel, none)
  else
    let response := env.fetchComparison finalTargets
    let comparison :=
      match response with
      | .withComparison items => items
      | .asArray items => items
      | .otherResp => []
    let safe := comparison.filterMap
      (fun oc =>
        match oc with
        | some c =>
          match c.metrics with
          | some ms => if ms.length > 0 then some c else none
          | none => none
        | none => none)
    let panel1 :=
      if comparison.length > 0 then
        if safe.length > 0 then
          let metrics :=
            match metricsToShow with
            | some l => if l.length > 0 then some l else defaultCompareMetrics add_extreme
            | none => defaultCompareMetrics add_extreme
          openLeftSidebar
            (setLeftSidebarContent
              (some (.comparisonTable "Location Comparison" safe metrics)) false panel)
        else panel
      else panel
    (.comparisonData comparison, panel1, some finalTargets)

/-- C9: after `setContent(A)` then `setContent(B, {keepPrevious:true})` the
panel holds current = B and alternate = A, and a subsequent `toggle()`
yields current = A and alternate = B; in general `setContent` with
`keepPrevious` true and an existing current moves that current into the
alternate slot before replacing, and with `keepPrevious` false or omitted
clears the alternate slot unconditionally. -/
theorem setContent_keepPrevious_toggle_spec :
    (∀ (s : PanelState) (A B : Content),
      ((setLeftSidebarContent (some B) true (setLeftSidebarContent (some A) false s)).content
          = some B) ∧
      ((setLeftSidebarContent (some B) true (setLeftSidebarContent (some A) false s)).altContent
          = some A) ∧
      ((toggleSidebarView
          (setLeftSidebarContent (some B) true (setLeftSidebarContent (some A) false s))).content
          = some A) ∧
      ((toggleSidebarView
          (setLeftSidebarContent (some B) true (setLeftSidebarContent (some A) false s))).altContent
          = some B)) ∧
    (∀ (s : PanelState) (c : Option Content) (cur : Content), s.content = some cur →
      (setLeftSidebarContent c true s).content = c ∧
      (setLeftSidebarContent c true s).altContent = some cur) ∧
    (∀ (s : PanelState) (c : Option Content),
      (setLeftSidebarContent c false s).content = c ∧
      (setLeftSidebarContent c false s).altContent = none) := by
  refine ⟨fun s A B => ?_, fun s c cur h => ?_, fun s c => ?_⟩
  · simp [setLeftSidebarContent, toggleSidebarView]
  · simp [setLeftSidebarContent, h]
  · simp [setLeftSidebarContent]

/-- C9 witness at concrete contents. -/
theorem setContent_keepPrevious_toggle_spec_witness :
    ((setLeftSidebarContent (some (Content.node 2)) true
        (setLeftSidebarContent (some (Content.node 1)) false defaultPanelState)).content
        = some (Content.node 2)) ∧
    ((setLeftSidebarContent (some (Content.node 2)) true
        (setLeftSidebarContent (some (Content.node 1)) false defaultPanelState)).altContent
        = some (Content.node 1)) ∧
    ((toggleSidebarView (setLeftSidebarContent (some (Content.node 2)) true
        (setLeftSidebarContent (some (Content.node 1)) false defaultPanelState))).content
        = some (Content.node 1)) ∧
    ((toggleSidebarView (setLeftSidebarContent (some (Content.node 2)) true
        (setLeftSidebarContent (some (Content.node 1)) false defaultPanelState))).altContent
        = some (Content.node 2)) ∧
    (setLeftSidebarContent none true ⟨false, some (Content.node 3), some (Content.node 4)⟩).content
        = none ∧
    (setLeftSidebarContent none true
        ⟨false, some (Content.node 3), some (Content.node 4)⟩).altContent
        = some (Content.node 3) ∧
    (setLeftSidebarContent (some (Content.node 5)) false defaultPanelState).content
        = some (Content.node 5) ∧
    (setLeftSidebarContent (some (Content.node 5)) false defaultPanelState).altContent = none := by
  obtain ⟨h1, h2, h3, h4⟩ :=
    setContent_keepPrevious_toggle_spec.1 defaultPanelState (Content.node 1) (Content.node 2)
  obtain ⟨h5, h6⟩ := setContent_keepPrevious_toggle_spec.2.1
    ⟨false, some (Content.node 3), some (Content.node 4)⟩ none (Content.node 3) rfl
  obtain ⟨h7, h8⟩ :=
    setContent_keepPrevious_toggle_spec.2.2 defaultPanelState (some (Content.node 5))
  exact ⟨h1, h2, h3, h4, h5, h6, h7, h8⟩

/-- C10: `setContent` with `keepAlt` true while the current slot is null
replaces the current content and leaves the alternate slot exactly as it
was. -/
theorem setContent_keepAlt_nullCurrent_preserves_alt
    (s : PanelState) (c : Option Content) (h : s.content = none) :
    (setLeftSidebarContent c true s).content = c ∧
    (setLeftSidebarContent c true s).altContent = s.altContent := by
  simp [setLeftSidebarContent, h]

/-- C10 witness: a concrete state with a null current and a populated
alternate slot. -/
theorem setContent_keepAlt_nullCurrent_preserves_alt_witness :
    (setLeftSidebarContent (some (Content.node 8)) true
        ⟨true, none, some (Content.node 7)⟩).content = some (Content.node 8) ∧
    (setLeftSidebarContent (some (Content.node 8)) true
        ⟨true, none, some (Content.node 7)⟩).altContent = some (Content.node 7) :=
  setContent_keepAlt_nullCurrent_preserves_alt
    ⟨true, none, some (Content.node 7)⟩ (some (Content.node 8)) rfl

/-- C6: in region mode with a pending first corner, a second map click at
any coordinates completes the region as the componentwise min/max
normalization of the two corners (so `bbox[0] ≤ bbox[2]` and
`bbox[1] ≤ bbox[3]`), clearing the corner and the point selection. -/
theorem onMapClick_secondClick_completes_region
    (s : MapState) (a b x y : ℚ)
    (hmode : s.selectionMode = .region)
    (hcorner : s.bboxCorner1 = some ⟨.num a, .num b⟩) :
    (onMapClick x y s).selectedRegion =
      some (.bbox ⟨.num (min a x), .num (min b y), .num (max a x), .num (max b y)⟩) ∧
    (onMapClick x y s).bboxCorner1 = none ∧
    (onMapClick x y s).selectedPoint = none ∧
    min a x ≤ max a x ∧ min b y ≤ max b y := by
  refine ⟨?_, ?_, ?_, min_le_max, min_le_max⟩ <;>
    simp [onMapClick, hmode, hcorner, jsMin, jsMax]

/-- C6 witness: clicks at (-122.45, 37.77) then (-122.40, 37.80) yield the
bbox [-122.45, 37.77, -122.40, 37.80] with the corner cleared. -/
theorem onMapClick_secondClick_completes_region_witness :
    (onMapClick (-(612 : ℚ)/5) ((189 : ℚ)/5)
        { defaultMapState with selectionMode := SelectionMode.region,
                               bboxCorner1 := some ⟨.num (-(2449 : ℚ)/20), .num ((3777 : ℚ)/100)⟩ }).selectedRegion
      = some (.bbox ⟨.num (-(2449 : ℚ)/20), .num ((3777 : ℚ)/100),
                     .num (-(612 : ℚ)/5), .num ((189 : ℚ)/5)⟩) ∧
    (onMapClick (-(612 : ℚ)/5) ((189 : ℚ)/5)
        { defaultMapState with selectionMode := SelectionMode.region,
                               bboxCorner1 := some ⟨.num (-(2449 : ℚ)/20), .num ((3777 : ℚ)/100)⟩ }).bboxCorner1
      = none ∧
    (onMapClick (-(612 : ℚ)/5) ((189 : ℚ)/5)
        { defaultMapState with selectionMode := SelectionMode.region,
                               bboxCorner1 := some ⟨.num (-(2449 : ℚ)/20), .num ((3777 : ℚ)/100)⟩ }).selectedPoint
      = none := by
  obtain ⟨h1, h2, h3, -, -⟩ := onMapClick_secondClick_completes_region
    { defaultMapState with selectionMode := SelectionMode.region,
                           bboxCorner1 := some ⟨.num (-(2449 : ℚ)/20), .num ((3777 : ℚ)/100)⟩ }
    (-(2449 : ℚ)/20) ((3777 : ℚ)/100) (-(612 : ℚ)/5) ((189 : ℚ)/5) rfl rfl
  refine ⟨?_, h2, h3⟩
  rw [h1]
  norm_num [min_def, max_def]

/-- C7: `get_insight_for_region` resolves its target in priority order —
explicit `bbox`/`feature_id` arguments; else the current region selection
(bbox or feature id); else a bbox `[lng-0.003, lat-0.003, lng+0.003,
lat+0.003]` synthesized around a selected point; else the structured
missing-context soft error, returned as a value (the resolution is a total
function, so nothing is thrown). -/
theorem resolveRegionTarget_priority :
    (∀ (bArg : Option Bbox4) (fArg : Option String) selR selP,
      bArg ≠ none ∨ fArg ≠ none →
      resolveRegionTarget bArg fArg selR selP = .fetchTarget bArg fArg) ∧
    (∀ b selP, resolveRegionTarget none none (some (.bbox b)) selP =
      .fetchTarget (some b) none) ∧
    (∀ i selP, resolveRegionTarget none none (some (.featureId i)) selP =
      .fetchTarget none (some i)) ∧
    (∀ (x y : ℚ), resolveRegionTarget none none none (some ⟨.num x, .num y⟩) =
      .fetchTarget (some ⟨.num (x - 3/1000), .num (y - 3/1000),
                          .num (x + 3/1000), .num (y + 3/1000)⟩) none) ∧
    (resolveRegionTarget none none none none =
      .missingContext "No region or point selected. Ask the user to click a point or draw a region on the map, or provide bbox or feature_id.") := by
  refine ⟨fun bArg fArg selR selP h => ?_, fun b selP => ?_, fun i selP => ?_,
          fun x y => ?_, rfl⟩
  · rcases h with h | h
    · rcases bArg with _ | b
      · exact absurd rfl h
      · cases fArg <;> simp [resolveRegionTarget]
    · rcases fArg with _ | f
      · exact absurd rfl h
      · cases bArg <;> simp [resolveRegionTarget]
  · simp [resolveRegionTarget]
  · simp [resolveRegionTarget]
  · simp [resolveRegionTarget, pointBboxDelta, jsSub, jsAdd]

/-- C7 witness: each resolution tier at a concrete input. -/
theorem resolveRegionTarget_priority_witness :
    resolveRegionTarget (some ⟨.num 0, .num 0, .num 1, .num 1⟩) none
        (some (.featureId "r1")) (some ⟨.num 5, .num 5⟩) =
      .fetchTarget (some ⟨.num 0, .num 0, .num 1, .num 1⟩) none ∧
    resolveRegionTarget none none (some (.bbox ⟨.num 0, .num 0, .num 2, .num 2⟩)) none =
      .fetchTarget (some ⟨.num 0, .num 0, .num 2, .num 2⟩) none ∧
    resolveRegionTarget none none (some (.featureId "cell-7")) none =
      .fetchTarget none (some "cell-7") ∧
    resolveRegionTarget none none none (some ⟨.num 1, .num 2⟩) =
      .fetchTarget (some ⟨.num (997/1000), .num (1997/1000),
                          .num (1003/1000), .num (2003/1000)⟩) none ∧
    resolveRegionTarget none none none none =
      .missingContext "No region or point selected. Ask the user to click a point or draw a region on the map, or provide bbox or feature_id." := by
  obtain ⟨h1, h2, h3, h4, h5⟩ := resolveRegionTarget_priority
  refine ⟨h1 _ _ _ _ (Or.inl (by simp)), h2 _ _, h3 _ _, ?_, h5⟩
  have := h4 1 2
  rw [this]
  norm_num

/-- C1 counterexample to the claim as stated: `flyTo(200, 37, 11)` with
finite inputs leaves `Viewport.longitude = 200 ∉ [-180, 180]` (no clamping
happens in `flyTo`), and `flyTo(NaN, 37)` does create a `FlyToRequest` and
does change the `Viewport`. -/
theorem flyTo_claim_counterexample :
    (JsNum.num 200).isFinite = true ∧
    (JsNum.num 37).isFinite = true ∧
    (flyTo (.num 200) (.num 37) (some (.num 11)) defaultMapState).viewport.longitude
      = .num 200 ∧
    ¬ ((200 : ℚ) ≤ 180) ∧
    (JsNum.nan).isFinite = false ∧
    (flyTo .nan (.num 37) none defaultMapState).flyToRequest ≠ none ∧
    (flyTo .nan (.num 37) none defaultMapState).viewport ≠ defaultMapState.viewport := by
  decide

/-- A clamp `Math.max(lo, Math.min(hi, x))` of a finite value lands in
`[lo, hi]` when `lo ≤ hi`. -/
theorem jsClamp_mem (lo hi x : ℚ) (h : lo ≤ hi) :
    ∃ q : ℚ, jsMax (.num lo) (jsMin (.num hi) (.num x)) = .num q ∧ lo ≤ q ∧ q ≤ hi :=
  ⟨max lo (min hi x), rfl, le_max_left _ _, max_le h (min_le_left _ _)⟩

/-- The renderer's zoom computation
`Math.max(1, Math.min(18, zoom || 11))` lands in `[1, 18]` for every
JavaScript number `zoom`. -/
theorem rendererZoom_mem (j : JsNum) :
    ∃ q : ℚ, jsMax (.num 1) (jsMin (.num 18) (if j.truthy then j else .num 11)) = .num q ∧
      1 ≤ q ∧ q ≤ 18 := by
  cases j with
  | num q =>
    by_cases h : q = 0
    · subst h
      exact ⟨11, by norm_num [JsNum.truthy, jsMin, jsMax, min_def, max_def], by norm_num,
        by norm_num⟩
    · refine ⟨max 1 (min 18 q), ?_, le_max_left _ _, max_le (by norm_num) (min_le_left _ _)⟩
      simp [JsNum.truthy, h, jsMin, jsMax]
  | nan =>
    exact ⟨11, by norm_num [JsNum.truthy, jsMin, jsMax, min_def, max_def], by norm_num,
      by norm_num⟩
  | posInf => exact ⟨18, by simp [JsNum.truthy, jsMin, jsMax], by norm_num, by norm_num⟩
  | negInf => exact ⟨1, by simp [JsNum.truthy, jsMin, jsMax], by norm_num, by norm_num⟩

/-- C1 amended: `flyTo` stores its raw coordinates in the Viewport and
always creates a FlyToRequest; the clamping lives in the renderer's apply
step, whose camera move (for a pending request with finite coordinates) has
longitude in [-180, 180], latitude in [-90, 90] and zoom in [1, 18], while a
request with a non-finite longitude or latitude is cleared with no camera
move; the apply step never touches the Viewport. -/
theorem flyTo_clamping_amended :
    (∀ (lng lat : JsNum) (z : Option JsNum) (s : MapState),
      (flyTo lng lat z s).viewport.longitude = lng ∧
      (flyTo lng lat z s).viewport.latitude = lat ∧
      (flyTo lng lat z s).flyToRequest ≠ none) ∧
    (∀ (s : MapState) (r : Viewport), s.flyToRequest = some r →
      ((r.longitude.isFinite && r.latitude.isFinite) = true →
        ∃ mv : CameraMove,
          applyFlyToRequest s = (clearFlyToRequest s, some mv) ∧
          (∃ q : ℚ, mv.centerLng = .num q ∧ -180 ≤ q ∧ q ≤ 180) ∧
          (∃ q : ℚ, mv.centerLat = .num q ∧ -90 ≤ q ∧ q ≤ 90) ∧
          (∃ q : ℚ, mv.zoom = .num q ∧ 1 ≤ q ∧ q ≤ 18)) ∧
      ((r.longitude.isFinite && r.latitude.isFinite) = false →
        applyFlyToRequest s = (clearFlyToRequest s, none)) ∧
      (applyFlyToRequest s).1.viewport = s.viewport) := by
  constructor
  · intro lng lat z s
    refine ⟨rfl, rfl, ?_⟩
    simp [flyTo]
  · intro s r hr
    refine ⟨?_, ?_, ?_⟩
    · intro hf
      obtain ⟨hlf, hltf⟩ := Bool.and_eq_true_iff.mp hf
      obtain ⟨qx, hqx⟩ : ∃ qx, r.longitude = .num qx := by
        cases h : r.longitude <;> simp [h, JsNum.isFinite] at hlf ⊢
      obtain ⟨qy, hqy⟩ : ∃ qy, r.latitude = .num qy := by
        cases h : r.latitude <;> simp [h, JsNum.isFinite] at hltf ⊢
      obtain ⟨qlng, e1, hlo1, hhi1⟩ := jsClamp_mem (-180) 180 qx (by norm_num)
      obtain ⟨qlat, e2, hlo2, hhi2⟩ := jsClamp_mem (-90) 90 qy (by norm_num)
      obtain ⟨qz, e3, hlo3, hhi3⟩ := rendererZoom_mem r.zoom
      refine ⟨⟨jsMax (.num (-180)) (jsMin (.num 180) r.longitude),
               jsMax (.num (-90)) (jsMin (.num 90) r.latitude),
               jsMax (.num 1) (jsMin (.num 18) (if r.zoom.truthy then r.zoom else .num 11))⟩,
              ?_, ⟨qlng, by rw [hqx, e1], hlo1, hhi1⟩,
              ⟨qlat, by rw [hqy, e2], hlo2, hhi2⟩, ⟨qz, e3, hlo3, hhi3⟩⟩
      simp [applyFlyToRequest, hr, hf]
    · intro hf
      simp [applyFlyToRequest, hr, hf]
    · cases hreq : s.flyToRequest with
      | none => simp [applyFlyToRequest, hreq]
      | some r2 =>
        by_cases hf : (r2.longitude.isFinite && r2.latitude.isFinite) = true
        · simp [applyFlyToRequest, hreq, hf, clearFlyToRequest]
        · simp [applyFlyToRequest, hreq, Bool.eq_false_iff.mpr hf, clearFlyToRequest]

/-- C1 amended witness: a finite out-of-range request yields a clamped
camera move; a NaN request is dropped with no move; `flyTo` stores raw
values. -/
theorem flyTo_clamping_amended_witness :
    ((flyTo (.num 200) (.num 37) none defaultMapState).viewport.longitude = .num 200 ∧
     (flyTo (.num 200) (.num 37) none defaultMapState).viewport.latitude = .num 37 ∧
     (flyTo (.num 200) (.num 37) none defaultMapState).flyToRequest ≠ none) ∧
    (∃ mv : CameraMove,
      applyFlyToRequest { defaultMapState with flyToRequest := some ⟨.num 200, .num 37, .num 25⟩ }
        = (clearFlyToRequest { defaultMapState with flyToRequest := some ⟨.num 200, .num 37, .num 25⟩ },
           some mv) ∧
      (∃ q : ℚ, mv.centerLng = .num q ∧ -180 ≤ q ∧ q ≤ 180) ∧
      (∃ q : ℚ, mv.centerLat = .num q ∧ -90 ≤ q ∧ q ≤ 90) ∧
      (∃ q : ℚ, mv.zoom = .num q ∧ 1 ≤ q ∧ q ≤ 18)) ∧
    applyFlyToRequest { defaultMapState with flyToRequest := some ⟨.nan, .num 37, .num 5⟩ }
      = (clearFlyToRequest { defaultMapState with flyToRequest := some ⟨.nan, .num 37, .num 5⟩ },
         none) := by
  refine ⟨flyTo_clamping_amended.1 (.num 200) (.num 37) none defaultMapState, ?_, ?_⟩
  · exact (flyTo_clamping_amended.2
      { defaultMapState with flyToRequest := some ⟨.num 200, .num 37, .num 25⟩ }
      ⟨.num 200, .num 37, .num 25⟩ rfl).1 (by decide)
  · exact ((flyTo_clamping_amended.2
      { defaultMapState with flyToRequest := some ⟨.nan, .num 37, .num 5⟩ }
      ⟨.nan, .num 37, .num 5⟩ rfl).2).1 (by decide)

/-- The non-`locations` branches of `show_on_map` preserve selection
mutual exclusivity (each branch nulls one side or leaves the state
unchanged). -/
theorem showOnMapNoLocations_selection_exclusive (args : ShowArgs) (s : MapState)
    (ih : s.selectedPoint = none ∨ s.selectedRegion = none) :
    (showOnMapNoLocations args s).1.selectedPoint = none ∨
    (showOnMapNoLocations args s).1.selectedRegion = none := by
  unfold showOnMapNoLocations
  cases hb : bboxArg4 args.bbox with
  | some nb => left; simp [flyTo]
  | none =>
    cases hlng : args.longitude with
    | none => cases hlat : args.latitude <;> simpa using ih
    | some lng =>
      cases hlat : args.latitude with
      | none => simpa using ih
      | some lat => right; simp [flyTo]

/-- The `locations` branch of `show_on_map` clears both selections. -/
theorem showOnMapLocations_clears_selection (zoom : Option JsNum)
    (locs : List (Option LocItem)) (s : MapState) :
    (showOnMapLocations zoom locs s).1.selectedPoint = none ∧
    (showOnMapLocations zoom locs s).1.selectedRegion = none := by
  by_cases h : (projectLocations locs).2.2 > 0 <;>
    simp [showOnMapLocations, h, flyTo]

/-- `show_on_map` preserves selection mutual exclusivity. -/
theorem showOnMap_selection_exclusive (args : ShowArgs) (s : MapState)
    (ih : s.selectedPoint = none ∨ s.selectedRegion = none) :
    (showOnMap args s).1.selectedPoint = none ∨
    (showOnMap args s).1.selectedRegion = none := by
  unfold showOnMap
  cases hl : args.locations with
  | none => exact showOnMapNoLocations_selection_exclusive args s ih
  | some locs =>
    by_cases hlen : locs.length > 0
    · simp only [hlen, if_true]
      exact Or.inl (showOnMapLocations_clears_selection args.zoom locs s).1
    · simp only [hlen, if_false]
      exact showOnMapNoLocations_selection_exclusive args s ih

/-- C2: in every reachable session state at most one of the point and
region selections is non-null — every store mutation either clears one of
them or preserves the state of both. -/
theorem selection_mutual_exclusion {s : MapState} (h : Reachable s) :
    s.selectedPoint = none ∨ s.selectedRegion = none := by
  induction h with
  | init => exact Or.inl rfl
  | @step s h e ih =>
    cases e with
    | click lng lat =>
      cases hm : s.selectionMode with
      | point => right; simp [step, onMapClick, hm]
      | region =>
        cases hc : s.bboxCorner1 with
        | none => left; simp [step, onMapClick, hm, hc]
        | some c => left; simp [step, onMapClick, hm, hc]
    | pointModeButton => right; simp [step, selectPointMode]
    | regionModeButton => left; simp [step, selectRegionMode]
    | styleButton => simpa [step, toggleMapStyleButton] using ih
    | showMap args => exact showOnMap_selection_exclusive args s ih
    | placeFound lng lat => right; simp [step, searchPlacesFound, flyTo]
    | navigate lng lat zoom => simpa [step, flyTo] using ih
    | applyFly =>
      cases hr : s.flyToRequest with
      | none => simpa [step, applyFlyToRequest, hr] using ih
      | some r =>
        by_cases hf : (r.longitude.isFinite && r.latitude.isFinite) = true
        · simpa [step, applyFlyToRequest, hr, hf, clearFlyToRequest] using ih
        · simpa [step, applyFlyToRequest, hr, Bool.eq_false_iff.mpr hf,
            clearFlyToRequest] using ih
    | clearFly => simpa [step, clearFlyToRequest] using ih
    | moveViewport v => simpa [step] using ih
    | setFilter f => simpa [step, filterMapView] using ih
    | layerCtl v st =>
      cases v <;> cases st <;> simpa [step, toggleMapLayer] using ih
    | heatmap m v => cases m <;> simpa [step, visualizeHeatmap] using ih

/-- C2 witness: the invariant at the reachable default state. -/
theorem selection_mutual_exclusion_witness :
    defaultMapState.selectedPoint = none ∨ defaultMapState.selectedRegion = none :=
  selection_mutual_exclusion Reachable.init

/-- C3 counterexample to the claim as stated: a map click in point mode on
a state with a non-empty highlight sequence replaces that sequence (with
the empty one) yet leaves a non-null point selection — so not every
operation that replaces the highlight sequence leaves both selections
null. -/
theorem highlight_replacement_claim_counterexample :
    ¬ (∀ (s : MapState) (e : Event),
        (step s e).highlightedLocations ≠ s.highlightedLocations →
        (step s e).selectedPoint = none ∧ (step s e).selectedRegion = none) := by
  intro hclaim
  have h := hclaim
    { defaultMapState with highlightedLocations := [.point (.num 0) (.num 0)] }
    (.click 1 1) (by decide)
  exact absurd h.1 (by decide)

/-- C3 amended: replacing the highlight sequence with the highlight
projector's output (the `locations` branch of `show_on_map`) always leaves
both selections null; the remaining writers of the sequence — a direct map
click and the bbox/point branches of `show_on_map` — only clear it to
empty while establishing a fresh selection. -/
theorem highlight_replacement_clears_selection_amended :
    (∀ (zoom : Option JsNum) (locs : List (Option LocItem)) (s : MapState),
      (showOnMapLocations zoom locs s).1.selectedPoint = none ∧
      (showOnMapLocations zoom locs s).1.selectedRegion = none) ∧
    (∀ (lng lat : ℚ) (s : MapState), (onMapClick lng lat s).highlightedLocations = []) ∧
    (∀ (args : ShowArgs) (s : MapState),
      (showOnMapNoLocations args s).1.highlightedLocations = [] ∨
      (showOnMapNoLocations args s).1 = s) := by
  refine ⟨showOnMapLocations_clears_selection, fun lng lat s => ?_, fun args s => ?_⟩
  · cases hm : s.selectionMode with
    | point => simp [onMapClick, hm]
    | region => cases hc : s.bboxCorner1 <;> simp [onMapClick, hm, hc]
  · unfold showOnMapNoLocations
    cases hb : bboxArg4 args.bbox with
    | some nb => left; simp [flyTo]
    | none =>
      cases hlng : args.longitude with
      | none => cases hlat : args.latitude <;> simp
      | some lng =>
        cases hlat : args.latitude with
        | none => simp
        | some lat => left; simp [flyTo]

/-- The claim's normalization rule, rendered from its words for comparison
with `normalizeItem`: a valid 4-element bbox verbatim (skipped as a bbox if
any coordinate is non-numeric); else direct longitude/latitude fields used
as a point, with no non-numeric caveat; else a nested center object's
fields used as a point; else nothing. -/
def normalizeItemClaim (loc : LocItem) : Option Highlight :=
  match extractBox loc.bbox with
  | some b => some (.box b)
  | none =>
    match loc.longitude, loc.latitude with
    | some lng, some lat => some (.point lng lat)
    | _, _ =>
      match loc.center with
      | some c =>
        match c.longitude, c.latitude with
        | some lng, some lat => some (.point lng lat)
        | _, _ => none
      | none => none

/-- C4 counterexample to the claim as stated: an item carrying direct
longitude/latitude fields one of which is non-numeric is not "used as a
point" — the code contributes nothing for it (and does not fall through to
a valid nested center either), diverging from the claim's rule. -/
theorem normalizeItem_claim_counterexample :
    normalizeItem ⟨none, some .nan, some (.num 1), none⟩ = none ∧
    normalizeItemClaim ⟨none, some .nan, some (.num 1), none⟩
      = some (.point .nan (.num 1)) ∧
    normalizeItem ⟨none, some .nan, some (.num 1), some ⟨some (.num 2), some (.num 3)⟩⟩
      = none ∧
    normalizeItem ⟨none, some .nan, some (.num 1), none⟩
      ≠ normalizeItemClaim ⟨none, some .nan, some (.num 1), none⟩ := by
  decide

/-- C4 amended: per input item the priority order is — a 4-element bbox
verbatim when all four coordinates are numeric (skipped as a bbox
otherwise); else direct longitude/latitude fields as a point; else a nested
center object's longitude/latitude as a point; a point so extracted is
dropped, with no further fallback, when either coordinate is non-numeric;
else the item contributes nothing. -/
theorem normalizeItem_priority_amended (loc : LocItem) :
    (∀ b, extractBox loc.bbox = some b → normalizeItem loc = some (.box b)) ∧
    (∀ l, loc.bbox = some l →
      (l.length ≠ 4 ∨ ∃ x ∈ l, x.isNaNB = true) → extractBox loc.bbox = none) ∧
    (extractBox loc.bbox = none →
      ∀ lng lat, loc.longitude = some lng → loc.latitude = some lat →
      lng.isNaNB = false → lat.isNaNB = false →
      normalizeItem loc = some (.point lng lat)) ∧
    (extractBox loc.bbox = none → (loc.longitude = none ∨ loc.latitude = none) →
      ∀ c lng lat, loc.center = some c →
      c.longitude = some lng → c.latitude = some lat →
      lng.isNaNB = false → lat.isNaNB = false →
      normalizeItem loc = some (.point lng lat)) ∧
    (extractBox loc.bbox = none →
      ∀ lng lat, extractPoint loc = some (lng, lat) →
      (lng.isNaNB || lat.isNaNB) = true → normalizeItem loc = none) ∧
    (extractBox loc.bbox = none → extractPoint loc = none → normalizeItem loc = none) := by
  refine ⟨fun b hb => ?_, fun l hl hbad => ?_, fun hb lng lat h1 h2 h3 h4 => ?_,
          fun hb hmiss c lng lat hc h1 h2 h3 h4 => ?_,
          fun hb lng lat hp hnan => ?_, fun hb hp => ?_⟩
  · simp [normalizeItem, hb]
  · rw [hl]
    rcases hbad with hlen | ⟨x, hx, hnan⟩
    · match l, hlen with
      | [], _ => rfl
      | [a], _ => rfl
      | [a, b], _ => rfl
      | [a, b, c], _ => rfl
      | a :: b :: c :: d :: e :: rest, _ => rfl
    · match l, hx with
      | [], hx => rfl
      | [a], hx => rfl
      | [a, b], hx => rfl
      | [a, b, c], hx => rfl
      | [a, b, c, d], hx =>
        simp only [List.mem_cons, List.not_mem_nil, or_false] at hx
        rcases hx with rfl | rfl | rfl | rfl <;>
          simp [extractBox, hnan]
      | a :: b :: c :: d :: e :: rest, hx => rfl
  · have hp : extractPoint loc = some (lng, lat) := by
      simp [extractPoint, h1, h2]
    simp [normalizeItem, hb, hp, h3, h4]
  · have hp : extractPoint loc = some (lng, lat) := by
      rcases hmiss with hmiss | hmiss
      · cases hlat : loc.latitude <;> simp [extractPoint, hmiss, hlat, hc, h1, h2]
      · cases hlng : loc.longitude <;> simp [extractPoint, hmiss, hlng, hc, h1, h2]
    simp [normalizeItem, hb, hp, h3, h4]
  · simp [normalizeItem, hb, hp, hnan]
  · simp [normalizeItem, hb, hp]

/-- C4 amended witness: one concrete item per tier. -/
theorem normalizeItem_priority_amended_witness :
    normalizeItem ⟨some [.num 0, .num 0, .num 1, .num 1], some (.num 9), none, none⟩
      = some (.box ⟨.num 0, .num 0, .num 1, .num 1⟩) ∧
    extractBox (some [.num 0, .nan, .num 1, .num 1]) = none ∧
    normalizeItem ⟨some [.num 0, .num 1, .num 2], some (.num 5), some (.num 6), none⟩
      = some (.point (.num 5) (.num 6)) ∧
    normalizeItem ⟨none, none, some (.num 7), some ⟨some (.num 2), some (.num 3)⟩⟩
      = some (.point (.num 2) (.num 3)) ∧
    normalizeItem ⟨none, some .nan, some (.num 1), none⟩ = none ∧
    normalizeItem ⟨none, none, none, none⟩ = none := by
  refine ⟨(normalizeItem_priority_amended
            ⟨some [.num 0, .num 0, .num 1, .num 1], some (.num 9), none, none⟩).1 _ rfl,
          (normalizeItem_priority_amended
            ⟨some [.num 0, .nan, .num 1, .num 1], none, none, none⟩).2.1
            _ rfl (Or.inr ⟨.nan, by decide, rfl⟩),
          (normalizeItem_priority_amended
            ⟨some [.num 0, .num 1, .num 2], some (.num 5), some (.num 6), none⟩).2.2.1
            rfl (.num 5) (.num 6) rfl rfl rfl rfl,
          (normalizeItem_priority_amended
            ⟨none, none, some (.num 7), some ⟨some (.num 2), some (.num 3)⟩⟩).2.2.2.1
            rfl (Or.inl rfl) ⟨some (.num 2), some (.num 3)⟩ (.num 2) (.num 3)
            rfl rfl rfl rfl rfl,
          (normalizeItem_priority_amended
            ⟨none, some .nan, some (.num 1), none⟩).2.2.2.2.1 rfl .nan (.num 1) rfl rfl,
          (normalizeItem_priority_amended ⟨none, none, none, none⟩).2.2.2.2.2 rfl rfl⟩

/-- The zoom tier function on exact rational spans, with no caller zoom. -/
def chosenZoomQ (count : Nat) (spread : ℚ) : ℚ :=
  if count = 1 then 13
  else if spread < 5 / 100 then 13
  else if spread < 1 / 10 then 12
  else 11

/-- `chooseZoom` with no caller zoom agrees with the rational tier function
on finite spreads. -/
theorem jsLt_num (a b : ℚ) : (jsLt (.num a) (.num b) = true) ↔ a < b := by
  simp [jsLt]

theorem chooseZoom_eq_chosenZoomQ (count : Nat) (q : ℚ) :
    chooseZoom none count (.num q) = .num (chosenZoomQ count q) := by
  unfold chooseZoom chosenZoomQ
  by_cases h1 : count = 1
  · rw [if_pos h1, if_pos h1]; rfl
  · rw [if_neg h1, if_neg h1]
    by_cases h2 : q < 5 / 100
    · rw [if_pos ((jsLt_num _ _).mpr h2), if_pos h2]
    · rw [if_neg (fun hc => h2 ((jsLt_num _ _).mp hc)), if_neg h2]
      by_cases h3 : q < 1 / 10
      · rw [if_pos ((jsLt_num _ _).mpr h3), if_pos h3]
      · rw [if_neg (fun hc => h3 ((jsLt_num _ _).mp hc)), if_neg h3]

/-- The zoom tier function is antitone in the span for a fixed count. -/
theorem chosenZoomQ_antitone (count : Nat) {q1 q2 : ℚ} (h : q1 ≤ q2) :
    chosenZoomQ count q2 ≤ chosenZoomQ count q1 := by
  unfold chosenZoomQ
  split_ifs <;> linarith

/-- The projector's pass keeps the accepted count equal to the length of
the produced highlight sequence. -/
theorem projectLocationsAux_length (locs : List (Option LocItem))
    (acc : List Highlight × Bounds × Nat) (h : acc.1.length = acc.2.2) :
    (projectLocationsAux locs acc).1.length = (projectLocationsAux locs acc).2.2 := by
  induction locs generalizing acc with
  | nil => exact h
  | cons o rest ih =>
    refine ih (projectStep acc o) ?_
    cases o with
    | none => simpa [projectStep] using h
    | some loc =>
      cases hn : normalizeItem loc with
      | none => simpa [projectStep, hn] using h
      | some hl => simp [projectStep, hn, h]

/-- Zero accepted items leave the produced highlight sequence empty. -/
theorem projectLocations_count_zero_empty (locs : List (Option LocItem))
    (h : (projectLocations locs).2.2 = 0) : (projectLocations locs).1 = [] := by
  have := projectLocationsAux_length locs ([], initBounds, 0) rfl
  rw [projectLocations] at h ⊢
  exact List.length_eq_zero.mp (this.trans h)

/-- C5: for the highlight projector's framing with no caller-supplied zoom,
the chosen zoom as a function of the union box's span is monotonically
non-increasing (count 1 gives the close zoom 13; spans under 0.05° give 13,
under 0.1° give 12, else 11), the fly-to target is the midpoint of the
union box at that zoom, and with zero accepted items the resulting sequence
is empty and no fly-to is triggered (viewport and request untouched). -/
theorem showOnMap_framing_spec :
    (∀ (count : Nat) (q1 q2 : ℚ), q1 ≤ q2 →
      chooseZoom none count (.num q1) = .num (chosenZoomQ count q1) ∧
      chooseZoom none count (.num q2) = .num (chosenZoomQ count q2) ∧
      chosenZoomQ count q2 ≤ chosenZoomQ count q1) ∧
    (chooseZoom none 1 (.num 2) = .num 13 ∧
     chooseZoom none 2 (.num (3 / 100)) = .num 13 ∧
     chooseZoom none 2 (.num (7 / 100)) = .num 12 ∧
     chooseZoom none 2 (.num (2 / 10)) = .num 11) ∧
    (∀ (args : ShowArgs) (s : MapState) (locs : List (Option LocItem)),
      args.locations = some locs → args.zoom = none → locs ≠ [] →
      ((projectLocations locs).2.2 > 0 →
        (showOnMap args s).1.flyToRequest =
          some ⟨jsHalf (jsAdd (projectLocations locs).2.1.minLng
                              (projectLocations locs).2.1.maxLng),
                jsHalf (jsAdd (projectLocations locs).2.1.minLat
                              (projectLocations locs).2.1.maxLat),
                chooseZoom none (projectLocations locs).2.2
                  (spreadOf (projectLocations locs).2.1)⟩) ∧
      ((projectLocations locs).2.2 = 0 →
        (showOnMap args s).1.highlightedLocations = [] ∧
        (showOnMap args s).1.flyToRequest = s.flyToRequest ∧
        (showOnMap args s).1.viewport = s.viewport)) := by
  refine ⟨fun count q1 q2 h =>
            ⟨chooseZoom_eq_chosenZoomQ count q1, chooseZoom_eq_chosenZoomQ count q2,
             chosenZoomQ_antitone count h⟩,
          ⟨by rw [chooseZoom_eq_chosenZoomQ]; norm_num [chosenZoomQ],
           by rw [chooseZoom_eq_chosenZoomQ]; norm_num [chosenZoomQ],
           by rw [chooseZoom_eq_chosenZoomQ]; norm_num [chosenZoomQ],
           by rw [chooseZoom_eq_chosenZoomQ]; norm_num [chosenZoomQ]⟩,
          fun args s locs hlocs hzoom hne => ⟨fun hpos => ?_, fun hzero => ?_⟩⟩
  · have hlen : locs.length > 0 := by
      cases locs with
      | nil => exact absurd rfl hne
      | cons a l => simp
    simp only [showOnMap, hlocs, hlen, if_true]
    rw [showOnMapLocations]
    simp only [hpos, if_true, hzoom, flyTo, Option.getD_some]
  · have hlen : locs.length > 0 := by
      cases locs with
      | nil => exact absurd rfl hne
      | cons a l => simp
    have hempty := projectLocations_count_zero_empty locs hzero
    simp only [showOnMap, hlocs, hlen, if_true]
    rw [showOnMapLocations]
    simp [hzero, hempty]

/-- C5 witness: the tier bridge and antitonicity at spans 0.03 ≤ 0.07 with
two accepted items; the fly-to midpoint on a concrete two-item call (union
box [0,0]–[2,3], center (1, 1.5), spread 3, zoom 11); and a call whose only
item is unparsable (empty sequence, no fly-to). -/
theorem showOnMap_framing_spec_witness :
    (chooseZoom none 2 (.num (3 / 100)) = .num (chosenZoomQ 2 (3 / 100)) ∧
     chooseZoom none 2 (.num (7 / 100)) = .num (chosenZoomQ 2 (7 / 100)) ∧
     chosenZoomQ 2 (7 / 100) ≤ chosenZoomQ 2 (3 / 100)) ∧
    (showOnMap
        ⟨none, none, none, none,
         some [some ⟨some [.num 0, .num 0, .num 1, .num 1], none, none, none⟩,
               some ⟨none, some (.num 2), some (.num 3), none⟩]⟩
        defaultMapState).1.flyToRequest
      = some ⟨.num 1, .num (3 / 2), .num 11⟩ ∧
    (showOnMap ⟨none, none, none, none, some [some ⟨none, none, none, none⟩]⟩
        defaultMapState).1.highlightedLocations = [] ∧
    (showOnMap ⟨none, none, none, none, some [some ⟨none, none, none, none⟩]⟩
        defaultMapState).1.flyToRequest = none := by
  obtain ⟨hz1, hz2, hz3⟩ := showOnMap_framing_spec.1 2 (3 / 100) (7 / 100) (by norm_num)
  have hfly := (showOnMap_framing_spec.2.2
    ⟨none, none, none, none,
     some [some ⟨some [.num 0, .num 0, .num 1, .num 1], none, none, none⟩,
           some ⟨none, some (.num 2), some (.num 3), none⟩]⟩
    defaultMapState
    [some ⟨some [.num 0, .num 0, .num 1, .num 1], none, none, none⟩,
     some ⟨none, some (.num 2), some (.num 3), none⟩]
    rfl rfl (by decide)).1 (by decide)
  have hzero := (showOnMap_framing_spec.2.2
    ⟨none, none, none, none, some [some ⟨none, none, none, none⟩]⟩
    defaultMapState [some ⟨none, none, none, none⟩] rfl rfl (by decide)).2 (by decide)
  refine ⟨⟨hz1, hz2, hz3⟩, ?_, hzero.1, hzero.2.1.trans rfl⟩
  rw [hfly]
  norm_num [projectLocations, projectLocationsAux, projectStep, normalizeItem,
    extractBox, extractPoint, updateBounds, initBounds, jsMin, jsMax, jsAdd,
    jsSub, jsHalf, spreadOf, chooseZoom, jsLt, min_def, max_def,
    JsNum.isNaNB]

/-- C8: a `compare_locations` call whose targets resolve to zero concrete
targets returns the no-valid-locations structured soft error, performs no
comparison fetch (the recorded request is `none`) and leaves the panel
state unchanged. -/
theorem compareLocations_zero_targets_soft_error
    (env : CompareEnv) (targets : Option (List CompTarget))
    (add_extreme : Option AddExtreme) (metricsToShow : Option (List String))
    (sel : Option Pt) (panel : PanelState)
    (h : finalTargetsOf env sel targets add_extreme = []) :
    compareLocations env targets add_extreme metricsToShow sel panel =
      (.compareError "No valid locations to compare. Pass place names (e.g. 'Sunset District', 'Glen Park') in targets, click a point on the map and use 'selected', or provide coordinates as 'point:lng,lat'.",
       panel, none) := by
  unfold compareLocations
  rw [h]
  simp

/-- A concrete oracle environment for witnesses: geocoding finds nothing,
`parseFloat` fails, the extreme fetch returns no results. -/
def testCompareEnv : CompareEnv where
  hasToken := true
  geocode := fun _ => none
  parseFloatFn := fun _ => .nan
  fetchExtreme := fun _ _ _ => []
  fetchComparison := fun _ => .otherResp

/-- C8 witness: `targets = ["selected"]` with no current point selection
and no fallback selection resolves to zero targets, so the call returns the
soft error with the panel untouched and no fetch recorded. -/
theorem compareLocations_zero_targets_soft_error_witness :
    finalTargetsOf testCompareEnv none (some [.strTarget "selected"]) none = [] ∧
    compareLocations testCompareEnv (some [.strTarget "selected"]) none none none
        defaultPanelState =
      (.compareError "No valid locations to compare. Pass place names (e.g. 'Sunset District', 'Glen Park') in targets, click a point on the map and use 'selected', or provide coordinates as 'point:lng,lat'.",
       defaultPanelState, none) :=
  ⟨rfl, compareLocations_zero_targets_soft_error testCompareEnv
    (some [.strTarget "selected"]) none none none defaultPanelState rfl⟩

end EarthLink
